import Mathlib

/-!
Verification of the grapes / ecs_monitor ECS terminal dashboard.

This file gives a shallow embedding of the parts of the repository that the
checked claims are about, and proves or refutes each claim against it:

* `src/grapes/utils/ids.py` — the metric-identifier sanitizer.
* `src/ecs_monitor/aws/metrics.py` — the CloudWatch metrics fetcher
  (insights check, batched metric queries, attaching results to the
  topology snapshot).
* `src/grapes/ui/app.py` — the application's refresh orchestration and
  view-state reconciliation (worker dispatch, cluster-list handling,
  selection and focus).

Remote calls are modelled as oracle functions (`Except`-valued), Python
floats as rationals, Python exceptions as `Except.error`, and the app's
mutable reactive attributes as an explicit state record transformed by pure
functions, one per handler method.  Widget-only side effects (table
repainting, cursor visibility) have no observable state in the claims and
are not modelled.
-/

/-! ## Identifier sanitization (src/grapes/utils/ids.py, lines 24-44)

`sanitize_metric_id` does, in order:
`re.sub(r"[^a-zA-Z0-9]", "_", s)`, then `.lower()`, then prepends `"m_"`
when the result is nonempty and does not start with a letter.

`Char.isAlphanum` is exactly the ASCII class `[a-zA-Z0-9]` of the regex.
Python's `str.lower()` is applied after the substitution, so every
character it sees is ASCII (`[a-zA-Z0-9_]`), on which it agrees with
`Char.toLower`.  Likewise the final `sanitized[0].isalpha()` test only ever
sees an ASCII character, on which Python's `isalpha` agrees with
`Char.isAlpha`. -/

/-- One character of `re.sub(r"[^a-zA-Z0-9]", "_", s)` (ids.py line 38). -/
def substituteNonAlnum (c : Char) : Char :=
  if c.isAlphanum then c else '_'

/-- Embedding of `sanitize_metric_id` (ids.py lines 24-44). -/
def sanitize_metric_id (s : String) : String :=
  let substituted := s.data.map substituteNonAlnum
  let lowered := substituted.map Char.toLower
  match lowered with
  | [] => ""
  | c :: _ => if c.isAlpha then String.mk lowered else String.mk ('m' :: '_' :: lowered)

/-- Characters that can occur in sanitizer output: lowercase ASCII letters,
ASCII digits, and the underscore. -/
def sanitizedChar (c : Char) : Prop :=
  (97 ≤ c.toNat ∧ c.toNat ≤ 122) ∨ (48 ≤ c.toNat ∧ c.toNat ≤ 57) ∨ c = '_'

/-- Whether a string starts with an ASCII letter (the property the spec
claims of sanitizer output). -/
def startsWithAlpha (s : String) : Bool :=
  match s.data with
  | [] => false
  | c :: _ => c.isAlpha

namespace ECS

/-! ## Data model (src/ecs_monitor/models)

Modelled from the spec: the model files `src/ecs_monitor/models/{cluster,
service,task}.py` are not under `src/` (only `models/__init__.py` re-exports
them), so the record shapes follow spec §3 ("DATA MODEL"), restricted to the
fields the metrics fetcher reads or writes: service name and nullable
cpu/memory usage, task id / short id / status, container name and nullable
cpu/memory usage.  Metric values are rationals (Python floats); `none`
means "no data available", distinct from zero. -/

structure Container where
  name : String
  cpu_used : Option ℚ := none
  memory_used : Option ℚ := none
deriving DecidableEq

structure Task where
  id : String
  short_id : String
  status : String
  containers : List Container
deriving DecidableEq

structure Service where
  name : String
  tasks : List Task := []
  cpu_used : Option ℚ := none
  memory_used : Option ℚ := none
deriving DecidableEq

structure Cluster where
  name : String
  services : List Service := []
  insights_enabled : Bool := false
deriving DecidableEq

/-! ## Metrics fetcher (src/ecs_monitor/aws/metrics.py) -/

/-- One datapoint of a `get_metric_statistics` response (only its presence
matters to the code). -/
structure Datapoint where
  average : ℚ
deriving DecidableEq

/-- One `MetricDataQuery` handed to `cloudwatch.get_metric_data`
(metrics.py lines 183-199 / 246-263). -/
structure MetricQuery where
  id : String
  ns : String
  metricName : String
  dimensions : List (String × String)
  period : Nat
  stat : String
deriving DecidableEq

/-- One entry of `response["MetricDataResults"]`. -/
structure MetricDataResult where
  id : String
  values : List ℚ
deriving DecidableEq

/-- Oracle for `cloudwatch.get_metric_data`: receives the batch of queries,
returns the results or raises. -/
def GetMetricData : Type := List MetricQuery → Except Unit (List MetricDataResult)

/-- `MAX_METRICS_PER_CALL` (metrics.py line 22). -/
def MAX_METRICS_PER_CALL : Nat := 500

/-- `check_container_insights` (metrics.py lines 46-71): issues one
`get_metric_statistics` call; at least one datapoint means insights is
enabled; a raised exception is swallowed and yields `false`. -/
def check_container_insights (resp : Except Unit (List Datapoint)) : Bool :=
  match resp with
  | .ok dps => decide (0 < dps.length)
  | .error _ => false

/-- One invocation of `check_container_insights`, also tracking the fetcher
state: result, updated `_insights_enabled` cache, and the number of
`get_metric_statistics` calls issued (always exactly one — the method never
consults the cache). -/
def check_container_insights_run (_cache : Option Bool) (resp : Except Unit (List Datapoint)) :
    Bool × Option Bool × Nat :=
  (check_container_insights resp, some (check_container_insights resp), 1)

/-- The cached `insights_enabled` property (metrics.py lines 73-78): only
when `_insights_enabled` is still `None` does it fall through to
`check_container_insights` and issue a statistics query. -/
def insights_enabled_run (cache : Option Bool) (resp : Except Unit (List Datapoint)) :
    Bool × Option Bool × Nat :=
  match cache with
  | some b => (b, some b, 0)
  | none => check_container_insights_run cache resp

/-- `_fetch_cluster_data_worker` (src/grapes/ui/app.py line 249) invokes
`self.metrics_fetcher.check_container_insights()` unconditionally on every
run, never the cached `insights_enabled` property. -/
def data_worker_insights (cache : Option Bool) (resp : Except Unit (List Datapoint)) :
    Bool × Option Bool × Nat :=
  check_container_insights_run cache resp

/-- Total number of insights statistics queries issued over a sequence of
`_fetch_cluster_data_worker` runs (one response oracle per run), starting
from the given `_insights_enabled` cache. -/
def data_worker_stat_queries (cache : Option Bool)
    (resps : List (Except Unit (List Datapoint))) : Nat :=
  (resps.foldl
    (fun (acc : Option Bool × Nat) resp =>
      let r := data_worker_insights acc.1 resp
      (r.2.1, acc.2 + r.2.2))
    (cache, 0)).2

/-- Fuel-indexed chunking; `fuel ≥ l.length` makes it total for `n > 0`. -/
def chunksGo (n : Nat) : Nat → List α → List (List α)
  | _, [] => []
  | 0, _ => []
  | fuel + 1, l => l.take n :: chunksGo n fuel (l.drop n)

/-- The batches `metric_queries[i : i + MAX_METRICS_PER_CALL]` walked by the
loop in `_fetch_metrics_batched` (metrics.py line 306): consecutive chunks
of at most `n` queries, in order. -/
def chunks (n : Nat) (l : List α) : List (List α) :=
  chunksGo n l.length l

/-- Results contributed by one batch (metrics.py lines 309-330): on success
each returned series maps to its most recent value (`values[0]`) or to
`None` for an empty series; on a raised exception every query id of the
batch maps to `None`. -/
def batch_results (gmd : GetMetricData) (batch : List MetricQuery) :
    List (String × Option ℚ) :=
  match gmd batch with
  | .ok rs => rs.map fun r => (r.id, r.values.head?)
  | .error _ => batch.map fun q => (q.id, none)

/-- `_fetch_metrics_batched` (metrics.py lines 290-332): one
`get_metric_data` call per chunk, accumulating all id-to-value assignments
into one dict (modelled as an association list; later writes shadow earlier
ones via `dictGet`). -/
def fetch_metrics_batched (gmd : GetMetricData) (queries : List MetricQuery) :
    List (String × Option ℚ) :=
  (chunks MAX_METRICS_PER_CALL queries).flatMap (batch_results gmd)

/-- `metrics.get(key)`: last write wins, absent key gives `None` (Python
conflates a missing key with a stored `None` here, as does the code). -/
def dictGet (d : List (String × Option ℚ)) (k : String) : Option ℚ :=
  match List.lookup k d.reverse with
  | some v => v
  | none => none

/-- The two service-level queries of `_build_service_metric_queries`
(metrics.py lines 180-221): always-available `AWS/ECS` namespace. -/
def service_cpu_query (clusterName : String) (s : Service) : MetricQuery :=
  { id := sanitize_metric_id ("svc_cpu_" ++ s.name)
    ns := "AWS/ECS"
    metricName := "CPUUtilization"
    dimensions := [("ClusterName", clusterName), ("ServiceName", s.name)]
    period := 60
    stat := "Average" }

def service_mem_query (clusterName : String) (s : Service) : MetricQuery :=
  { id := sanitize_metric_id ("svc_mem_" ++ s.name)
    ns := "AWS/ECS"
    metricName := "MemoryUtilization"
    dimensions := [("ClusterName", clusterName), ("ServiceName", s.name)]
    period := 60
    stat := "Average" }

/-- `_build_service_metric_queries` (metrics.py lines 162-223). -/
def build_service_metric_queries (clusterName : String) (services : List Service) :
    List MetricQuery :=
  (services.map fun s => [service_cpu_query clusterName s, service_mem_query clusterName s]).flatten

/-- The two container-level queries of `_build_container_metric_queries`
(metrics.py lines 243-287): `ECS/ContainerInsights` namespace. -/
def container_cpu_query (clusterName : String) (t : Task) (c : Container) : MetricQuery :=
  { id := sanitize_metric_id ("cpu_" ++ t.short_id ++ "_" ++ c.name)
    ns := "ECS/ContainerInsights"
    metricName := "CpuUtilized"
    dimensions := [("ClusterName", clusterName), ("TaskId", t.id), ("ContainerName", c.name)]
    period := 60
    stat := "Average" }

def container_mem_query (clusterName : String) (t : Task) (c : Container) : MetricQuery :=
  { id := sanitize_metric_id ("mem_" ++ t.short_id ++ "_" ++ c.name)
    ns := "ECS/ContainerInsights"
    metricName := "MemoryUtilized"
    dimensions := [("ClusterName", clusterName), ("TaskId", t.id), ("ContainerName", c.name)]
    period := 60
    stat := "Average" }

/-- `_build_container_metric_queries` (metrics.py lines 225-288). -/
def build_container_metric_queries (clusterName : String)
    (containers : List (Task × Container)) : List MetricQuery :=
  (containers.map fun p =>
    [container_cpu_query clusterName p.1 p.2, container_mem_query clusterName p.1 p.2]).flatten

/-- The `containers_to_fetch` collection of `_fetch_container_metrics`
(metrics.py lines 132-138): every (task, container) pair of the cluster's
services whose task is RUNNING, in iteration order. -/
def containers_to_fetch (cluster : Cluster) : List (Task × Container) :=
  (cluster.services.map fun s =>
    (s.tasks.map fun t =>
      if t.status = "RUNNING" then t.containers.map fun c => (t, c) else []).flatten).flatten

/-- `_attach_metrics_to_services` (metrics.py lines 334-354), on one
service. -/
def attach_service_metrics (metrics : List (String × Option ℚ)) (s : Service) : Service :=
  { s with
    cpu_used := dictGet metrics (sanitize_metric_id ("svc_cpu_" ++ s.name))
    memory_used := dictGet metrics (sanitize_metric_id ("svc_mem_" ++ s.name)) }

def attach_metrics_to_services (services : List Service)
    (metrics : List (String × Option ℚ)) : List Service :=
  services.map (attach_service_metrics metrics)

/-- Python `int()` truncates toward zero. -/
def pyInt (q : ℚ) : ℤ :=
  if 0 ≤ q then ⌊q⌋ else ⌈q⌉

/-- `_attach_metrics_to_containers` (metrics.py lines 356-385), on one
container of a RUNNING task: CPU is stored as returned, memory is passed
through `int(...)`. -/
def attach_container_metrics (metrics : List (String × Option ℚ)) (shortId : String)
    (c : Container) : Container :=
  { c with
    cpu_used := dictGet metrics (sanitize_metric_id ("cpu_" ++ shortId ++ "_" ++ c.name))
    memory_used :=
      (dictGet metrics (sanitize_metric_id ("mem_" ++ shortId ++ "_" ++ c.name))).map
        fun v => ((pyInt v : ℤ) : ℚ) }

/-- `_attach_metrics_to_containers` over the whole snapshot: the Python
version mutates exactly the `(task, container)` pairs collected by
`containers_to_fetch`, i.e. the containers of RUNNING tasks. -/
def attach_metrics_to_containers (metrics : List (String × Option ℚ))
    (cluster : Cluster) : Cluster :=
  { cluster with
    services := cluster.services.map fun s =>
      { s with
        tasks := s.tasks.map fun t =>
          if t.status = "RUNNING" then
            { t with containers := t.containers.map (attach_container_metrics metrics t.short_id) }
          else t } }

/-- `_fetch_service_metrics` (metrics.py lines 97-124).  Returns the updated
snapshot together with the trace of `get_metric_data` batches issued. -/
def fetch_service_metrics (gmd : GetMetricData) (cluster : Cluster) :
    Cluster × List (List MetricQuery) :=
  if cluster.services.isEmpty then (cluster, [])
  else
    let queries := build_service_metric_queries cluster.name cluster.services
    if queries.isEmpty then (cluster, [])
    else
      ({ cluster with
          services := attach_metrics_to_services cluster.services (fetch_metrics_batched gmd queries) },
        chunks MAX_METRICS_PER_CALL queries)

/-- `_fetch_container_metrics` (metrics.py lines 126-160), with the trace of
`get_metric_data` batches issued. -/
def fetch_container_metrics (gmd : GetMetricData) (cluster : Cluster) :
    Cluster × List (List MetricQuery) :=
  let pairs := containers_to_fetch cluster
  if pairs.isEmpty then (cluster, [])
  else
    let queries := build_container_metric_queries cluster.name pairs
    if queries.isEmpty then (cluster, [])
    else
      (attach_metrics_to_containers (fetch_metrics_batched gmd queries) cluster,
        chunks MAX_METRICS_PER_CALL queries)

/-- `fetch_metrics_for_cluster` (metrics.py lines 80-95): service metrics
always; container metrics only when the (already resolved) insights flag is
`true`. -/
def fetch_metrics_for_cluster (gmd : GetMetricData) (insightsEnabled : Bool)
    (cluster : Cluster) : Cluster × List (List MetricQuery) :=
  let s := fetch_service_metrics gmd cluster
  if insightsEnabled then
    let c := fetch_container_metrics gmd s.1
    (c.1, s.2 ++ c.2)
  else s

end ECS

namespace Grapes

/-! ## Application state machine (src/grapes/ui/app.py)

The reactive attributes of `ECSMonitorApp` that the claims inspect become a
state record; each handler method becomes a pure transition function.  The
Textual worker machinery is modelled by the `worker` field: `some k` while a
worker of kind `k` is running (`self._refresh_worker.is_running`), `none`
otherwise; handlers of worker results run after completion, when the worker
is no longer running. -/

inductive AppView where
  | LOADING
  | MAIN
deriving DecidableEq

inductive FocusPanel where
  | CLUSTERS
  | DETAIL
deriving DecidableEq

/-- A worker dispatched by `run_worker`, by name: `"fetch_clusters"`
(`_fetch_clusters_worker`) or `"refresh_data"`
(`_fetch_cluster_data_worker`). -/
inductive WorkerKind where
  | clusters
  | data
deriving DecidableEq

/-- A cluster as the grapes app handles it; only its name is ever consulted
by the orchestration and reconciliation code. -/
structure Cluster where
  name : String
deriving DecidableEq

structure AppState where
  loading : Bool
  current_view : AppView
  focus_panel : FocusPanel
  clusters : List Cluster
  selected_cluster : Option Cluster
  /-- `config.cluster.name` (`self._configured_cluster`); `none` when falsy. -/
  configured_cluster : Option String
  /-- The `cluster` reactive of the `ClusterDetailView` widget (set by
  `_update_detail_view`, cleared by `_deselect_cluster`); its service /
  task / container cursor selection lives inside this widget. -/
  detail_cluster : Option Cluster
  worker : Option WorkerKind
deriving DecidableEq

/-- `_focus_clusters_panel` (app.py lines 418-426). -/
def focus_clusters_panel (st : AppState) : AppState :=
  { st with focus_panel := .CLUSTERS }

/-- `_focus_detail_panel` (app.py lines 428-436). -/
def focus_detail_panel (st : AppState) : AppState :=
  { st with focus_panel := .DETAIL }

/-- `_fetch_cluster_list` (app.py lines 199-210): skip when a refresh
worker is already running, otherwise dispatch the clusters worker. -/
def fetch_cluster_list (st : AppState) : AppState :=
  if st.worker.isSome then st
  else { st with worker := some .clusters }

/-- `_fetch_cluster_data` (app.py lines 225-239): no-op without a selected
cluster; skip when a refresh worker is already running; otherwise dispatch
the data worker. -/
def fetch_cluster_data (st : AppState) : AppState :=
  if st.selected_cluster.isNone then st
  else if st.worker.isSome then st
  else { st with worker := some .data }

/-- `_fetch_clusters_worker` (app.py lines 212-223): a raised exception is
caught and an empty list returned, so the worker always completes with
`SUCCESS`. -/
def fetch_clusters_worker (fetched : Except String (List Cluster)) : List Cluster :=
  match fetched with
  | .ok cs => cs
  | .error _ => []

/-- `_fetch_cluster_data_worker` (app.py lines 241-263): a raised exception
is caught and `None` returned, so the worker always completes with
`SUCCESS`. -/
def fetch_cluster_data_worker (fetched : Except String Cluster) : Option Cluster :=
  match fetched with
  | .ok c => some c
  | .error _ => none

/-- `_select_cluster` (app.py lines 357-384): store the selection, trigger
the data fetch, and (by default) move focus to the detail panel. -/
def select_cluster (st : AppState) (c : Cluster) (changeFocus : Bool) : AppState :=
  let st := { st with selected_cluster := some c }
  let st := fetch_cluster_data st
  if changeFocus then focus_detail_panel st else st

/-- `_deselect_cluster` (app.py lines 394-416): clear the selection, clear
the detail view (which holds the service/task/container selection), focus
the clusters panel. -/
def deselect_cluster (st : AppState) : AppState :=
  focus_clusters_panel { st with selected_cluster := none, detail_cluster := none }

/-- `_handle_clusters_fetch_result`, SUCCESS branch with a (always
non-`None`) list result (app.py lines 272-312).  Runs on completion of the
clusters worker. -/
def handle_clusters_fetch_result (st : AppState) (result : List Cluster) : AppState :=
  let st := { st with worker := none, clusters := result }
  let isInitialLoad := st.loading
  let st :=
    if st.loading then { st with loading := false, current_view := .MAIN } else st
  if isInitialLoad ∧ st.selected_cluster = none then
    match st.configured_cluster with
    | some cname =>
      match result.find? (fun c => c.name == cname) with
      | some c => select_cluster st c true
      | none => st
    | none =>
      match result with
      | [c] => select_cluster st c true
      | _ => focus_clusters_panel st
  else st

/-- `_handle_cluster_data_result`, SUCCESS branch (app.py lines 328-347):
a `None` result leaves all prior state untouched; a cluster result replaces
the selected cluster and refreshes the detail view. -/
def handle_cluster_data_result (st : AppState) (result : Option Cluster) : AppState :=
  let st := { st with worker := none }
  match result with
  | some c => { st with selected_cluster := some c, detail_cluster := some c }
  | none => st

/-- `action_refresh` (app.py lines 457-462): manual refresh request. -/
def action_refresh (st : AppState) : AppState :=
  let st := fetch_cluster_list st
  if st.selected_cluster.isSome then fetch_cluster_data st else st

/-- `_periodic_refresh` (app.py lines 190-197): the timer tick, gated on
the main view being live, then the same entry points as `action_refresh`. -/
def periodic_refresh (st : AppState) : AppState :=
  if st.loading = false ∧ st.current_view = .MAIN then
    let st := fetch_cluster_list st
    if st.selected_cluster.isSome then fetch_cluster_data st else st
  else st

end Grapes

/-! ## Concrete states and oracles used by witnesses and counterexamples -/

/-- A running app state: main view, cluster "alpha" selected and shown in
the detail panel, a cluster-list refresh in flight. -/
def exSelectedState : Grapes.AppState :=
  { loading := false
    current_view := .MAIN
    focus_panel := .DETAIL
    clusters := [⟨"alpha"⟩]
    selected_cluster := some ⟨"alpha"⟩
    configured_cluster := none
    detail_cluster := some ⟨"alpha"⟩
    worker := some .clusters }

/-- An initial-load state: no configured cluster, nothing selected yet. -/
def exInitialState : Grapes.AppState :=
  { loading := true
    current_view := .LOADING
    focus_panel := .CLUSTERS
    clusters := []
    selected_cluster := none
    configured_cluster := none
    detail_cluster := none
    worker := some .clusters }

/-- An idle running state with nothing selected. -/
def exIdleState : Grapes.AppState :=
  { loading := false
    current_view := .MAIN
    focus_panel := .CLUSTERS
    clusters := [⟨"alpha"⟩, ⟨"beta"⟩]
    selected_cluster := none
    configured_cluster := none
    detail_cluster := none
    worker := none }

/-- A service with one RUNNING task of one container and one STOPPED task
of one container. -/
def exTask : ECS.Task :=
  { id := "0123456789abcdef", short_id := "01234567", status := "RUNNING"
    containers := [{ name := "web" }] }

def exStoppedTask : ECS.Task :=
  { id := "fedcba9876543210", short_id := "fedcba98", status := "STOPPED"
    containers := [{ name := "web" }] }

def exService : ECS.Service :=
  { name := "svc", tasks := [exTask, exStoppedTask] }

def exServiceNoRunning : ECS.Service :=
  { name := "svc", tasks := [exStoppedTask] }

def exCluster : ECS.Cluster :=
  { name := "demo", services := [exService] }

def exClusterNoRunning : ECS.Cluster :=
  { name := "demo", services := [exServiceNoRunning] }

/-- A metrics oracle that always raises. -/
def exFailingGmd : ECS.GetMetricData := fun _ => Except.error ()

/-- A metrics oracle answering the service memory query with the fractional
value 55.5 and returning no other series. -/
def exFractionalGmd : ECS.GetMetricData := fun _ =>
  Except.ok [{ id := "svc_mem_svc", values := [(111 : ℚ) / 2] }]

/-! ## Helper lemmas: ASCII character classes and `Char.toLower` -/

theorem uint32_le_iff_toNat_le (a b : UInt32) : a ≤ b ↔ a.toNat ≤ b.toNat := by
  rw [UInt32.le_def, BitVec.le_def]; rfl

theorem char_isAlphanum_iff (c : Char) :
    c.isAlphanum = true ↔
      (65 ≤ c.toNat ∧ c.toNat ≤ 90) ∨ (97 ≤ c.toNat ∧ c.toNat ≤ 122) ∨
      (48 ≤ c.toNat ∧ c.toNat ≤ 57) := by
  simp [Char.isAlphanum, Char.isAlpha, Char.isUpper, Char.isLower, Char.isDigit,
    Char.toNat, uint32_le_iff_toNat_le]
  norm_num [UInt32.size]
  tauto

theorem char_isAlpha_iff (c : Char) :
    c.isAlpha = true ↔ (65 ≤ c.toNat ∧ c.toNat ≤ 90) ∨ (97 ≤ c.toNat ∧ c.toNat ≤ 122) := by
  simp [Char.isAlpha, Char.isUpper, Char.isLower, Char.toNat, uint32_le_iff_toNat_le]
  norm_num [UInt32.size]

theorem char_toLower_toNat_of_upper {c : Char} (h1 : 65 ≤ c.toNat) (h2 : c.toNat ≤ 90) :
    (Char.toLower c).toNat = c.toNat + 32 := by
  rw [Char.toLower, if_pos (by omega : c.toNat ≥ 65 ∧ c.toNat ≤ 90)]
  rw [Char.ofNat, dif_pos (Or.inl (by omega : c.toNat + 32 < 0xd800))]
  rfl

theorem char_toLower_fixed {c : Char} (h : ¬(65 ≤ c.toNat ∧ c.toNat ≤ 90)) :
    c.toLower = c := by
  rw [Char.toLower, if_neg (by omega : ¬(c.toNat ≥ 65 ∧ c.toNat ≤ 90))]

/-- Each character produced by substitution-then-lowercasing is a lowercase
letter, a digit, or an underscore. -/
theorem sanitized_step (c : Char) : sanitizedChar ((substituteNonAlnum c).toLower) := by
  by_cases hc : c.isAlphanum
  · rw [substituteNonAlnum, if_pos hc]
    rcases (char_isAlphanum_iff c).mp hc with h | h | h
    · left
      rw [char_toLower_toNat_of_upper h.1 h.2]
      omega
    · rw [char_toLower_fixed (by omega)]
      left; exact h
    · rw [char_toLower_fixed (by omega)]
      right; left; exact h
  · rw [substituteNonAlnum, if_neg hc]
    right; right
    decide

/-- Substitution and lowercasing both fix already-sanitized characters. -/
theorem sanitizedChar_fixed {c : Char} (h : sanitizedChar c) :
    substituteNonAlnum c = c ∧ c.toLower = c := by
  rcases h with h | h | h
  · exact ⟨by rw [substituteNonAlnum,
        if_pos ((char_isAlphanum_iff c).mpr (Or.inr (Or.inl h)))],
      char_toLower_fixed (by omega)⟩
  · exact ⟨by rw [substituteNonAlnum,
        if_pos ((char_isAlphanum_iff c).mpr (Or.inr (Or.inr h)))],
      char_toLower_fixed (by omega)⟩
  · subst h
    exact ⟨by decide, by decide⟩

/-- Shape of sanitizer output: a list of sanitized characters that is empty
or headed by a letter. -/
theorem sanitize_output_form (s : String) :
    ∃ l, sanitize_metric_id s = String.mk l ∧ (∀ c ∈ l, sanitizedChar c) ∧
      (l = [] ∨ ∃ c rest, l = c :: rest ∧ c.isAlpha = true) := by
  have hmem : ∀ c' ∈ (s.data.map substituteNonAlnum).map Char.toLower, sanitizedChar c' := by
    intro c' hc'
    rcases List.mem_map.mp hc' with ⟨d, hd, rfl⟩
    rcases List.mem_map.mp hd with ⟨e, _, rfl⟩
    exact sanitized_step e
  rw [sanitize_metric_id]
  cases hl : (s.data.map substituteNonAlnum).map Char.toLower with
  | nil =>
    exact ⟨[], rfl, by simp, Or.inl rfl⟩
  | cons c cs =>
    rw [hl] at hmem
    by_cases hc : c.isAlpha
    · refine ⟨c :: cs, by simp [hc], hmem, Or.inr ⟨c, cs, rfl, hc⟩⟩
    · refine ⟨'m' :: '_' :: c :: cs, by simp [hc], ?_, Or.inr ⟨'m', _, rfl, by decide⟩⟩
      intro d hd
      simp only [List.mem_cons] at hd
      rcases hd with rfl | rfl | hd
      · left; decide
      · right; right; rfl
      · exact hmem d (List.mem_cons.mpr hd)

/-- The sanitizer fixes strings that already have output shape. -/
theorem sanitize_mk_fixed {l : List Char} (hc : ∀ c ∈ l, sanitizedChar c)
    (hh : l = [] ∨ ∃ c rest, l = c :: rest ∧ c.isAlpha = true) :
    sanitize_metric_id (String.mk l) = String.mk l := by
  have hsub : l.map substituteNonAlnum = l := by
    rw [List.map_congr_left (fun c h => (sanitizedChar_fixed (hc c h)).1)]
    exact List.map_id l
  have hlow : l.map Char.toLower = l := by
    rw [List.map_congr_left (fun c h => (sanitizedChar_fixed (hc c h)).2)]
    exact List.map_id l
  rw [sanitize_metric_id]
  show (match (((String.mk l).data.map substituteNonAlnum).map Char.toLower) with
    | [] => ""
    | c :: _ =>
      if c.isAlpha then String.mk (((String.mk l).data.map substituteNonAlnum).map Char.toLower)
      else String.mk ('m' :: '_' :: ((String.mk l).data.map substituteNonAlnum).map Char.toLower)) =
    String.mk l
  have hdata : (String.mk l).data = l := rfl
  rw [hdata, hsub, hlow]
  rcases hh with rfl | ⟨c, rest, rfl, halpha⟩
  · rfl
  · simp [halpha]

/-! ## Helper lemmas: batching and result dictionaries -/

theorem chunksGo_flatten {α : Type} {n : Nat} (hn : 0 < n) :
    ∀ (fuel : Nat) (l : List α), l.length ≤ fuel → (ECS.chunksGo n fuel l).flatten = l := by
  intro fuel
  induction fuel with
  | zero =>
    intro l hl
    have : l = [] := List.eq_nil_of_length_eq_zero (Nat.le_zero.mp hl)
    subst this
    rfl
  | succ fuel ih =>
    intro l hl
    cases l with
    | nil => rfl
    | cons a t =>
      simp only [List.length_cons] at hl
      have hrec := ih ((a :: t).drop n)
        (by simp only [List.length_drop, List.length_cons]; omega)
      show (((a :: t).take n) :: ECS.chunksGo n fuel ((a :: t).drop n)).flatten = a :: t
      rw [List.flatten_cons, hrec, List.take_append_drop]

/-- The batched call walks exactly the original query list:
flattening the chunks gives back the list. -/
theorem chunks_flatten {α : Type} {n : Nat} (hn : 0 < n) (l : List α) :
    (ECS.chunks n l).flatten = l :=
  chunksGo_flatten hn l.length l (Nat.le_refl _)

theorem lookup_all_none (k : String) :
    ∀ (m : List (String × Option ℚ)), (∀ p ∈ m, p.2 = none) →
      (match List.lookup k m with | some v => v | none => none) = (none : Option ℚ) := by
  intro m
  induction m with
  | nil => intro _; rfl
  | cons a t ih =>
    intro h
    obtain ⟨k2, v⟩ := a
    have hv : v = none := h (k2, v) (List.mem_cons_self _ t)
    cases hk : k == k2 with
    | true =>
      simp only [List.lookup, hk]
      exact hv
    | false =>
      simp only [List.lookup, hk]
      exact ih fun p hp => h p (List.mem_cons_of_mem _ hp)

/-- If every recorded assignment is `None`, every `dict.get` is `None`. -/
theorem dictGet_none_of_all {d : List (String × Option ℚ)}
    (h : ∀ p ∈ d, p.2 = none) (k : String) : ECS.dictGet d k = none := by
  rw [ECS.dictGet]
  exact lookup_all_none k d.reverse fun p hp => h p (List.mem_reverse.mp hp)

/-! ## C9 — the identifier sanitizer -/

/-- C9 (counterexample): `sanitize_metric_id ""` equals `""`, an output that
does not start with a letter; so "always produces output starting with a
letter" fails on the empty string, which the claim itself maps to `""`. -/
theorem sanitize_empty_not_alpha_cex :
    sanitize_metric_id "" = "" ∧ startsWithAlpha (sanitize_metric_id "") = false := by
  decide

/-- C9 (amended): `sanitize_metric_id` is idempotent (in particular on
already-sanitized input), every nonempty output starts with a letter, and
the example mappings hold — the empty string being the sole output that
starts with no letter. -/
theorem sanitize_idempotent_and_shape :
    (∀ s, sanitize_metric_id (sanitize_metric_id s) = sanitize_metric_id s) ∧
    (∀ s, sanitize_metric_id s ≠ "" → startsWithAlpha (sanitize_metric_id s) = true) ∧
    sanitize_metric_id "My-Service.Name:v1" = "my_service_name_v1" ∧
    sanitize_metric_id "123svc" = "m_123svc" ∧
    sanitize_metric_id "" = "" := by
  refine ⟨?_, ?_, by decide, by decide, by decide⟩
  · intro s
    obtain ⟨l, he, hc, hh⟩ := sanitize_output_form s
    rw [he]
    exact sanitize_mk_fixed hc hh
  · intro s hne
    obtain ⟨l, he, hc, hh⟩ := sanitize_output_form s
    rcases hh with rfl | ⟨c, rest, rfl, ha⟩
    · exact absurd he hne
    · rw [he]
      simp [startsWithAlpha, ha]

/-- C9 witness: the amended theorem applied at concrete inputs. -/
theorem sanitize_idempotent_and_shape_witness :
    sanitize_metric_id (sanitize_metric_id "A b") = sanitize_metric_id "A b" ∧
    startsWithAlpha (sanitize_metric_id "123svc") = true :=
  ⟨sanitize_idempotent_and_shape.1 "A b",
    sanitize_idempotent_and_shape.2.1 "123svc" (by decide)⟩

/-! ## C5 — the insights check -/

/-- C5: `check_container_insights` answers `true` exactly for a successful
statistics response with at least one datapoint; an empty response or a
raised query both yield `false`.  (The function is total: the caught
exception is represented by the `Except.error` argument and never
escapes.) -/
theorem check_insights_datapoints :
    (∀ dps : List ECS.Datapoint,
        ECS.check_container_insights (Except.ok dps) = decide (dps ≠ [])) ∧
    (∀ e : Unit, ECS.check_container_insights (Except.error e) = false) := by
  constructor
  · intro dps
    cases dps with
    | nil => rfl
    | cons d t => simp [ECS.check_container_insights]
  · intro e
    rfl

/-! ## C7 — insights-check caching across refresh cycles -/

/-- C7 (code-bug evidence): starting from an unset `_insights_enabled`
cache, two consecutive `_fetch_cluster_data_worker` runs for the same
selected cluster issue two insights statistics queries — one per cycle —
because the worker calls `check_container_insights()` unconditionally
(grapes app.py line 249), while the fetcher's cached `insights_enabled`
property (which the worker bypasses) would issue none once the cache is
set. -/
theorem insights_check_requery_every_cycle :
    ECS.data_worker_stat_queries none [Except.ok [], Except.ok []] = 2 ∧
    (ECS.insights_enabled_run (some true) (Except.ok [])).2.2 = 0 := by
  exact ⟨rfl, rfl⟩

/-! ## C4 — a failing metrics batch degrades to "no data" -/

/-- C4: when the `get_metric_data` call for a batch raises, every query id
of that batch is recorded as `None` in the result dict; when every batch
raises, every attached service carries `cpu_used = none` and
`memory_used = none`.  The attach operation is a total function — the
exception is consumed inside `fetch_metrics_batched` and never escapes. -/
theorem batch_failure_marks_no_data :
    (∀ (gmd : ECS.GetMetricData) (queries batch : List ECS.MetricQuery),
        batch ∈ ECS.chunks ECS.MAX_METRICS_PER_CALL queries →
        gmd batch = Except.error () →
        ∀ q ∈ batch,
          (q.id, (none : Option ℚ)) ∈ ECS.fetch_metrics_batched gmd queries) ∧
    (∀ (gmd : ECS.GetMetricData) (cname : String) (services : List ECS.Service),
        (∀ b, gmd b = Except.error ()) →
        ∀ s ∈ ECS.attach_metrics_to_services services
            (ECS.fetch_metrics_batched gmd
              (ECS.build_service_metric_queries cname services)),
          s.cpu_used = none ∧ s.memory_used = none) := by
  constructor
  · intro gmd queries batch hb he q hq
    refine List.mem_flatMap.mpr ⟨batch, hb, ?_⟩
    rw [ECS.batch_results, he]
    exact List.mem_map.mpr ⟨q, hq, rfl⟩
  · intro gmd cname services hall s hs
    have hnone : ∀ p ∈ ECS.fetch_metrics_batched gmd
        (ECS.build_service_metric_queries cname services), p.2 = none := by
      intro p hp
      rcases List.mem_flatMap.mp hp with ⟨b, _, hpb⟩
      rw [ECS.batch_results, hall b] at hpb
      rcases List.mem_map.mp hpb with ⟨q, _, rfl⟩
      rfl
    rcases List.mem_map.mp hs with ⟨s0, _, rfl⟩
    exact ⟨dictGet_none_of_all hnone _, dictGet_none_of_all hnone _⟩

/-- C4 witness: a concrete failing oracle; the cpu query id of the one
service of the batch is recorded as "no data", and the attached service has
null cpu and memory. -/
theorem batch_failure_marks_no_data_witness :
    ((ECS.service_cpu_query "demo" exService).id, (none : Option ℚ)) ∈
        ECS.fetch_metrics_batched exFailingGmd
          (ECS.build_service_metric_queries "demo" [exService]) ∧
      (ECS.attach_service_metrics
          (ECS.fetch_metrics_batched exFailingGmd
            (ECS.build_service_metric_queries "demo" [exService]))
          exService).cpu_used = none ∧
      (ECS.attach_service_metrics
          (ECS.fetch_metrics_batched exFailingGmd
            (ECS.build_service_metric_queries "demo" [exService]))
          exService).memory_used = none :=
  ⟨batch_failure_marks_no_data.1 exFailingGmd
      (ECS.build_service_metric_queries "demo" [exService])
      (ECS.build_service_metric_queries "demo" [exService])
      (by decide) rfl (ECS.service_cpu_query "demo" exService) (by decide),
    (batch_failure_marks_no_data.2 exFailingGmd "demo" [exService] (fun _ => rfl) _
      (by decide)).1,
    (batch_failure_marks_no_data.2 exFailingGmd "demo" [exService] (fun _ => rfl) _
      (by decide)).2⟩

/-! ## C6 — which metric queries a refresh issues -/

theorem fetch_service_metrics_trace (gmd : ECS.GetMetricData) (cluster : ECS.Cluster) :
    (ECS.fetch_service_metrics gmd cluster).2.flatten =
      ECS.build_service_metric_queries cluster.name cluster.services := by
  simp only [ECS.fetch_service_metrics]
  by_cases h1 : cluster.services.isEmpty
  · simp [h1, List.isEmpty_iff.mp h1, ECS.build_service_metric_queries]
  · rw [if_neg h1]
    by_cases h2 : (ECS.build_service_metric_queries cluster.name cluster.services).isEmpty
    · simp [h2, List.isEmpty_iff.mp h2]
    · rw [if_neg h2]
      exact chunks_flatten (by decide) _

theorem fetch_container_metrics_trace (gmd : ECS.GetMetricData) (cluster : ECS.Cluster) :
    (ECS.fetch_container_metrics gmd cluster).2.flatten =
      ECS.build_container_metric_queries cluster.name (ECS.containers_to_fetch cluster) := by
  simp only [ECS.fetch_container_metrics]
  by_cases h1 : (ECS.containers_to_fetch cluster).isEmpty
  · simp [h1, List.isEmpty_iff.mp h1, ECS.build_container_metric_queries]
  · rw [if_neg h1]
    by_cases h2 : (ECS.build_container_metric_queries cluster.name
        (ECS.containers_to_fetch cluster)).isEmpty
    · simp [h2, List.isEmpty_iff.mp h2]
    · rw [if_neg h2]
      exact chunks_flatten (by decide) _

/-- Attaching service metrics changes neither the cluster name nor the
(task, container) pairs that the container pass walks. -/
theorem fetch_service_metrics_preserves (gmd : ECS.GetMetricData) (cluster : ECS.Cluster) :
    (ECS.fetch_service_metrics gmd cluster).1.name = cluster.name ∧
    ECS.containers_to_fetch (ECS.fetch_service_metrics gmd cluster).1 =
      ECS.containers_to_fetch cluster := by
  simp only [ECS.fetch_service_metrics]
  by_cases h1 : cluster.services.isEmpty
  · simp [h1]
  · rw [if_neg h1]
    by_cases h2 : (ECS.build_service_metric_queries cluster.name cluster.services).isEmpty
    · simp [h2]
    · rw [if_neg h2]
      refine ⟨rfl, ?_⟩
      simp only [ECS.containers_to_fetch, ECS.attach_metrics_to_services, List.map_map]
      rfl

/-- C6: the batched `get_metric_data` calls of one refresh walk exactly the
service-level queries plus — only under insights — the container-level
queries; every collected (task, container) pair has a RUNNING task; all
service queries live in the always-available `AWS/ECS` namespace; and for a
cluster whose services have no RUNNING task, even the insights-enabled pass
issues only the service-level queries. -/
theorem container_queries_insights_running_only :
    ∀ (gmd : ECS.GetMetricData) (cluster : ECS.Cluster),
      (ECS.fetch_metrics_for_cluster gmd true cluster).2.flatten =
          ECS.build_service_metric_queries cluster.name cluster.services ++
            ECS.build_container_metric_queries cluster.name
              (ECS.containers_to_fetch cluster) ∧
      (ECS.fetch_metrics_for_cluster gmd false cluster).2.flatten =
          ECS.build_service_metric_queries cluster.name cluster.services ∧
      (∀ p ∈ ECS.containers_to_fetch cluster, p.1.status = "RUNNING") ∧
      (∀ q ∈ ECS.build_service_metric_queries cluster.name cluster.services,
        q.ns = "AWS/ECS") ∧
      ((∀ s ∈ cluster.services, ∀ t ∈ s.tasks, t.status ≠ "RUNNING") →
        ECS.containers_to_fetch cluster = [] ∧
        (ECS.fetch_metrics_for_cluster gmd true cluster).2.flatten =
          ECS.build_service_metric_queries cluster.name cluster.services) := by
  intro gmd cluster
  have hsvc := fetch_service_metrics_trace gmd cluster
  have hpres := fetch_service_metrics_preserves gmd cluster
  have hctr := fetch_container_metrics_trace gmd (ECS.fetch_service_metrics gmd cluster).1
  have htrue : (ECS.fetch_metrics_for_cluster gmd true cluster).2 =
      (ECS.fetch_service_metrics gmd cluster).2 ++
        (ECS.fetch_container_metrics gmd (ECS.fetch_service_metrics gmd cluster).1).2 := rfl
  have hfalse : (ECS.fetch_metrics_for_cluster gmd false cluster).2 =
      (ECS.fetch_service_metrics gmd cluster).2 := rfl
  have hmain : (ECS.fetch_metrics_for_cluster gmd true cluster).2.flatten =
      ECS.build_service_metric_queries cluster.name cluster.services ++
        ECS.build_container_metric_queries cluster.name (ECS.containers_to_fetch cluster) := by
    rw [htrue, List.flatten_append, hsvc, hctr, hpres.1, hpres.2]
  refine ⟨hmain, by rw [hfalse, hsvc], ?_, ?_, ?_⟩
  · intro p hp
    simp only [ECS.containers_to_fetch] at hp
    rcases List.mem_flatten.mp hp with ⟨inner, hin, hp2⟩
    rcases List.mem_map.mp hin with ⟨s, hs, rfl⟩
    rcases List.mem_flatten.mp hp2 with ⟨inner2, hin2, hp3⟩
    rcases List.mem_map.mp hin2 with ⟨t, ht, rfl⟩
    by_cases hr : t.status = "RUNNING"
    · rw [if_pos hr] at hp3
      rcases List.mem_map.mp hp3 with ⟨c, hc, rfl⟩
      exact hr
    · rw [if_neg hr] at hp3
      cases hp3
  · intro q hq
    simp only [ECS.build_service_metric_queries] at hq
    rcases List.mem_flatten.mp hq with ⟨pairQs, hin, hq2⟩
    rcases List.mem_map.mp hin with ⟨s, hs, rfl⟩
    simp only [List.mem_cons, List.not_mem_nil, or_false] at hq2
    rcases hq2 with rfl | rfl <;> rfl
  · intro h
    have hempty : ECS.containers_to_fetch cluster = [] := by
      simp only [ECS.containers_to_fetch]
      rw [List.flatten_eq_nil_iff]
      intro inner hin
      rcases List.mem_map.mp hin with ⟨s, hs, rfl⟩
      rw [List.flatten_eq_nil_iff]
      intro inner2 hin2
      rcases List.mem_map.mp hin2 with ⟨t, ht, rfl⟩
      rw [if_neg (h s hs t ht)]
    refine ⟨hempty, ?_⟩
    rw [hmain, hempty]
    simp [ECS.build_container_metric_queries]

/-- C6 witness: applied to the concrete cluster whose only task is STOPPED;
its insights-enabled refresh still issues only the service-level queries. -/
theorem container_queries_insights_running_only_witness :
    ECS.containers_to_fetch exClusterNoRunning = [] ∧
    (ECS.fetch_metrics_for_cluster exFailingGmd true exClusterNoRunning).2.flatten =
      ECS.build_service_metric_queries exClusterNoRunning.name exClusterNoRunning.services :=
  (container_queries_insights_running_only exFailingGmd exClusterNoRunning).2.2.2.2
    (by decide)

/-! ## C8 — null propagation and rounding of attached metric values -/

/-- C8 (counterexample): a service-level memory series with the fractional
most-recent value 55.5 is attached to the service as exactly 55.5 — service
memory is *not* rounded to whole units (only container memory passes
through `int(...)`). -/
theorem service_memory_not_rounded_cex :
    (ECS.attach_metrics_to_services [exService]
        (ECS.fetch_metrics_batched exFractionalGmd
          (ECS.build_service_metric_queries "demo" [exService]))).map
        ECS.Service.memory_used = [some ((111 : ℚ) / 2)] ∧
    ¬ ∃ z : ℤ, ((111 : ℚ) / 2) = (z : ℚ) := by
  constructor
  · rfl
  · rintro ⟨z, hz⟩
    have h1 : (111 : ℚ) = (z : ℚ) * 2 := by
      field_simp at hz
      linarith
    have h2 : (111 : ℤ) = z * 2 := by exact_mod_cast h1
    omega

/-- C8 (amended): a series returning zero datapoints is recorded as an
explicit `None` and a nonempty series as its most recent value (never a
default number); attached *container* memory is whole (it passes through
`int(...)`) while container CPU keeps the raw value; attached *service*
memory and CPU keep the raw, possibly fractional, value unchanged. -/
theorem metric_values_null_and_rounding :
    (∀ (gmd : ECS.GetMetricData) (queries batch : List ECS.MetricQuery)
        (rs : List ECS.MetricDataResult),
        batch ∈ ECS.chunks ECS.MAX_METRICS_PER_CALL queries →
        gmd batch = Except.ok rs →
        ∀ r ∈ rs, (r.id, r.values.head?) ∈ ECS.fetch_metrics_batched gmd queries) ∧
    (∀ (metrics : List (String × Option ℚ)) (shortId : String) (c : ECS.Container),
        (ECS.attach_container_metrics metrics shortId c).cpu_used =
          ECS.dictGet metrics (sanitize_metric_id ("cpu_" ++ shortId ++ "_" ++ c.name)) ∧
        ((ECS.attach_container_metrics metrics shortId c).memory_used = none ∨
          ∃ z : ℤ, (ECS.attach_container_metrics metrics shortId c).memory_used =
            some (z : ℚ))) ∧
    (∀ (metrics : List (String × Option ℚ)) (s : ECS.Service) (q : ℚ),
        ECS.dictGet metrics (sanitize_metric_id ("svc_mem_" ++ s.name)) = some q →
        (ECS.attach_service_metrics metrics s).memory_used = some q) ∧
    (∀ (metrics : List (String × Option ℚ)) (s : ECS.Service) (q : ℚ),
        ECS.dictGet metrics (sanitize_metric_id ("svc_cpu_" ++ s.name)) = some q →
        (ECS.attach_service_metrics metrics s).cpu_used = some q) := by
  refine ⟨?_, ?_, ?_, ?_⟩
  · intro gmd queries batch rs hb he r hr
    refine List.mem_flatMap.mpr ⟨batch, hb, ?_⟩
    rw [ECS.batch_results, he]
    exact List.mem_map.mpr ⟨r, hr, rfl⟩
  · intro metrics shortId c
    refine ⟨rfl, ?_⟩
    cases h : ECS.dictGet metrics (sanitize_metric_id ("mem_" ++ shortId ++ "_" ++ c.name)) with
    | none =>
      left
      simp [ECS.attach_container_metrics, h]
    | some v =>
      right
      exact ⟨ECS.pyInt v, by simp [ECS.attach_container_metrics, h]⟩
  · intro metrics s q h
    simp [ECS.attach_service_metrics, h]
  · intro metrics s q h
    simp [ECS.attach_service_metrics, h]

/-- C8 witness: the concrete fractional series lands in the result dict and
is attached to the service unchanged. -/
theorem metric_values_null_and_rounding_witness :
    ("svc_mem_svc", some ((111 : ℚ) / 2)) ∈
        ECS.fetch_metrics_batched exFractionalGmd
          (ECS.build_service_metric_queries "demo" [exService]) ∧
      (ECS.attach_service_metrics [("svc_mem_svc", some ((111 : ℚ) / 2))]
          exService).memory_used = some ((111 : ℚ) / 2) :=
  ⟨metric_values_null_and_rounding.1 exFractionalGmd
      (ECS.build_service_metric_queries "demo" [exService])
      (ECS.build_service_metric_queries "demo" [exService])
      [⟨"svc_mem_svc", [(111 : ℚ) / 2]⟩] (by decide) rfl
      ⟨"svc_mem_svc", [(111 : ℚ) / 2]⟩ (List.mem_singleton.mpr rfl),
    metric_values_null_and_rounding.2.2.1 [("svc_mem_svc", some ((111 : ℚ) / 2))]
      exService ((111 : ℚ) / 2) rfl⟩

/-! ## App-level helper lemmas -/

theorem fetch_cluster_data_clusters (st : Grapes.AppState) :
    (Grapes.fetch_cluster_data st).clusters = st.clusters := by
  rw [Grapes.fetch_cluster_data]
  split
  · rfl
  · split <;> rfl

theorem select_cluster_clusters (st : Grapes.AppState) (c : Grapes.Cluster) (f : Bool) :
    (Grapes.select_cluster st c f).clusters = st.clusters := by
  rw [Grapes.select_cluster]
  split
  · exact fetch_cluster_data_clusters _
  · exact fetch_cluster_data_clusters _

/-- The clusters-fetch handler always stores the worker result as the new
cluster list, whatever else it does. -/
theorem handle_clusters_fetch_result_clusters (st : Grapes.AppState)
    (result : List Grapes.Cluster) :
    (Grapes.handle_clusters_fetch_result st result).clusters = result := by
  simp only [Grapes.handle_clusters_fetch_result]
  repeat' split
  all_goals try rw [select_cluster_clusters]
  all_goals try rw [Grapes.focus_clusters_panel]
  all_goals rfl

/-! ## C1 — reconciling a listing that lost the selected cluster -/

/-- C1 (counterexample): cluster "alpha" is selected with focus on the
detail panel; reconciling a fresh listing containing only "beta" — the
selected name is absent — leaves the selection set and the focus on the
detail panel: nothing is cleared and focus does not return to the cluster
list. -/
theorem reconcile_absent_cluster_keeps_selection_cex :
    (Grapes.Cluster.mk "beta").name ≠ "alpha" ∧
    exSelectedState.selected_cluster = some ⟨"alpha"⟩ ∧
    (Grapes.handle_clusters_fetch_result exSelectedState [⟨"beta"⟩]).selected_cluster =
      some ⟨"alpha"⟩ ∧
    (Grapes.handle_clusters_fetch_result exSelectedState [⟨"beta"⟩]).focus_panel =
      Grapes.FocusPanel.DETAIL := by
  decide

/-- C1 (amended): reconciling a new cluster listing never clears an
existing cluster selection — present in the listing or not, the handler
leaves the selection and the panel focus unchanged.  Clearing the
selection, clearing the detail view (which carries the service/task/
container selection), and returning focus to the cluster list happen only
on the explicit `_deselect_cluster` path. -/
theorem reconcile_preserves_selection_and_focus :
    (∀ (st : Grapes.AppState) (result : List Grapes.Cluster) (c : Grapes.Cluster),
        st.selected_cluster = some c →
        (Grapes.handle_clusters_fetch_result st result).selected_cluster = some c ∧
        (Grapes.handle_clusters_fetch_result st result).focus_panel = st.focus_panel) ∧
    (∀ st : Grapes.AppState,
        (Grapes.deselect_cluster st).selected_cluster = none ∧
        (Grapes.deselect_cluster st).detail_cluster = none ∧
        (Grapes.deselect_cluster st).focus_panel = Grapes.FocusPanel.CLUSTERS) := by
  constructor
  · intro st result c hsel
    simp only [Grapes.handle_clusters_fetch_result]
    by_cases hload : st.loading
    · simp only [hload, if_true]
      rw [if_neg (by simp [hsel])]
      exact ⟨hsel, rfl⟩
    · simp only [hload, if_false]
      rw [if_neg (by simp [hsel, hload])]
      exact ⟨hsel, rfl⟩
  · intro st
    exact ⟨rfl, rfl, rfl⟩

/-- C1 witness: the amended preservation applied at the concrete state with
"alpha" selected and a listing holding only "beta". -/
theorem reconcile_preserves_selection_and_focus_witness :
    (Grapes.handle_clusters_fetch_result exSelectedState [⟨"beta"⟩]).selected_cluster =
        some ⟨"alpha"⟩ ∧
      (Grapes.handle_clusters_fetch_result exSelectedState [⟨"beta"⟩]).focus_panel =
        exSelectedState.focus_panel :=
  reconcile_preserves_selection_and_focus.1 exSelectedState [⟨"beta"⟩] ⟨"alpha"⟩ rfl

/-! ## C2 — behaviour of a failing refresh cycle -/

/-- C2 (counterexample): with prior cluster list ["alpha"], a cluster-list
fetch whose underlying call raises makes `_fetch_clusters_worker` swallow
the exception and return `[]`; the SUCCESS handler then stores `[]` — the
prior snapshot's cluster list is not retained unchanged. -/
theorem failed_cluster_list_fetch_clears_snapshot_cex :
    Grapes.fetch_clusters_worker (Except.error "boom") = [] ∧
    exSelectedState.clusters = [⟨"alpha"⟩] ∧
    (Grapes.handle_clusters_fetch_result exSelectedState
        (Grapes.fetch_clusters_worker (Except.error "boom"))).clusters = [] := by
  decide

/-- C2 (amended): for the selected-cluster data cycle the claim holds — a
raised fetch makes the worker return `None`, the handler retains the whole
prior snapshot unchanged, the worker slot clears, and the next refresh
request dispatches normally.  For the cluster-list cycle, however, a raised
fetch yields `[]`, which the handler stores over the prior cluster list.
In both cases the exception is caught inside the worker, which therefore
completes with SUCCESS: the ERROR-state notification path cannot run, and
the failure is only logged. -/
theorem failed_fetch_retains_selected_snapshot :
    ∀ (st : Grapes.AppState) (e : String),
      Grapes.fetch_cluster_data_worker (Except.error e) = none ∧
      (Grapes.handle_cluster_data_result st none).selected_cluster = st.selected_cluster ∧
      (Grapes.handle_cluster_data_result st none).detail_cluster = st.detail_cluster ∧
      (Grapes.handle_cluster_data_result st none).clusters = st.clusters ∧
      (Grapes.handle_cluster_data_result st none).focus_panel = st.focus_panel ∧
      (Grapes.handle_cluster_data_result st none).worker = none ∧
      (Grapes.fetch_cluster_list (Grapes.handle_cluster_data_result st none)).worker =
        some Grapes.WorkerKind.clusters ∧
      Grapes.fetch_clusters_worker (Except.error e) = [] ∧
      (Grapes.handle_clusters_fetch_result st
          (Grapes.fetch_clusters_worker (Except.error e))).clusters = [] := by
  intro st e
  exact ⟨rfl, rfl, rfl, rfl, rfl, rfl, rfl, rfl,
    handle_clusters_fetch_result_clusters st []⟩

/-! ## C3 — at most one fetch cycle in flight -/

/-- C3: while a worker is running, every refresh entry point
(`_fetch_cluster_list`, `_fetch_cluster_data`, the manual `action_refresh`,
the timer's `_periodic_refresh`) leaves the state — including the in-flight
worker — completely untouched; once the worker has completed, a refresh
request dispatches normally. -/
theorem refresh_request_exclusive :
    (∀ (st : Grapes.AppState) (k : Grapes.WorkerKind),
        st.worker = some k →
        Grapes.fetch_cluster_list st = st ∧
        Grapes.fetch_cluster_data st = st ∧
        Grapes.action_refresh st = st ∧
        Grapes.periodic_refresh st = st) ∧
    (∀ st : Grapes.AppState,
        st.worker = none →
        (Grapes.fetch_cluster_list st).worker = some Grapes.WorkerKind.clusters ∧
        (st.selected_cluster.isSome = true →
          (Grapes.fetch_cluster_data st).worker = some Grapes.WorkerKind.data)) := by
  constructor
  · intro st k hw
    have h1 : Grapes.fetch_cluster_list st = st := by
      rw [Grapes.fetch_cluster_list, if_pos (by simp [hw])]
    have h2 : Grapes.fetch_cluster_data st = st := by
      rw [Grapes.fetch_cluster_data]
      by_cases hsel : st.selected_cluster.isNone
      · rw [if_pos hsel]
      · rw [if_neg hsel, if_pos (by simp [hw])]
    have h3 : Grapes.action_refresh st = st := by
      rw [Grapes.action_refresh, h1]
      by_cases hsel : st.selected_cluster.isSome
      · rw [if_pos hsel, h2]
      · rw [if_neg hsel]
    have h4 : Grapes.periodic_refresh st = st := by
      rw [Grapes.periodic_refresh]
      by_cases hg : st.loading = false ∧ st.current_view = Grapes.AppView.MAIN
      · rw [if_pos hg, h1]
        by_cases hsel : st.selected_cluster.isSome
        · rw [if_pos hsel, h2]
        · rw [if_neg hsel]
      · rw [if_neg hg]
    exact ⟨h1, h2, h3, h4⟩
  · intro st hw
    constructor
    · rw [Grapes.fetch_cluster_list, if_neg (by simp [hw])]
    · intro hsel
      have hne : ¬ st.selected_cluster.isNone = true := by
        cases hsome : st.selected_cluster with
        | none => rw [hsome] at hsel; cases hsel
        | some c => simp
      rw [Grapes.fetch_cluster_data, if_neg hne, if_neg (by simp [hw])]

/-- C3 witness: the busy state absorbs a refresh request; the idle state
dispatches the clusters worker. -/
theorem refresh_request_exclusive_witness :
    Grapes.fetch_cluster_list exSelectedState = exSelectedState ∧
    (Grapes.fetch_cluster_list exIdleState).worker = some Grapes.WorkerKind.clusters :=
  ⟨(refresh_request_exclusive.1 exSelectedState .clusters rfl).1,
    (refresh_request_exclusive.2 exIdleState rfl).1⟩

/-! ## C10 — initial-load auto-selection -/

/-- C10: on the initial cluster-list load with no configured cluster name,
a singleton listing auto-selects the lone cluster — dispatching its
detail-data worker and focusing the detail panel; a listing with at least
two clusters selects nothing and focuses the cluster list; and a
non-initial refresh never changes the selection. -/
theorem initial_load_autoselect :
    (∀ (st : Grapes.AppState) (c : Grapes.Cluster),
        st.loading = true → st.selected_cluster = none → st.configured_cluster = none →
        (Grapes.handle_clusters_fetch_result st [c]).selected_cluster = some c ∧
        (Grapes.handle_clusters_fetch_result st [c]).worker = some Grapes.WorkerKind.data ∧
        (Grapes.handle_clusters_fetch_result st [c]).focus_panel =
          Grapes.FocusPanel.DETAIL) ∧
    (∀ (st : Grapes.AppState) (c1 c2 : Grapes.Cluster) (rest : List Grapes.Cluster),
        st.loading = true → st.selected_cluster = none → st.configured_cluster = none →
        (Grapes.handle_clusters_fetch_result st (c1 :: c2 :: rest)).selected_cluster =
          none ∧
        (Grapes.handle_clusters_fetch_result st (c1 :: c2 :: rest)).focus_panel =
          Grapes.FocusPanel.CLUSTERS) ∧
    (∀ (st : Grapes.AppState) (result : List Grapes.Cluster),
        st.loading = false →
        (Grapes.handle_clusters_fetch_result st result).selected_cluster =
          st.selected_cluster) := by
  refine ⟨?_, ?_, ?_⟩
  · intro st c hload hsel hconf
    simp only [Grapes.handle_clusters_fetch_result, hload, hsel, hconf, if_true,
      Grapes.select_cluster, Grapes.fetch_cluster_data, Grapes.focus_detail_panel,
      Option.isNone_some, Option.isSome_none, Bool.false_eq_true, if_false, and_self]
  · intro st c1 c2 rest hload hsel hconf
    simp only [Grapes.handle_clusters_fetch_result, hload, hsel, hconf, if_true,
      Grapes.focus_clusters_panel, and_self]
  · intro st result hload
    simp only [Grapes.handle_clusters_fetch_result, hload, Bool.false_eq_true, if_false,
      false_and]

/-- C10 witness: from the concrete initial state, a singleton listing
selects "alpha"; a two-element listing selects nothing. -/
theorem initial_load_autoselect_witness :
    (Grapes.handle_clusters_fetch_result exInitialState [⟨"alpha"⟩]).selected_cluster =
        some ⟨"alpha"⟩ ∧
      (Grapes.handle_clusters_fetch_result exInitialState
          [⟨"alpha"⟩, ⟨"beta"⟩]).selected_cluster = none :=
  ⟨(initial_load_autoselect.1 exInitialState ⟨"alpha"⟩ rfl rfl rfl).1,
    (initial_load_autoselect.2.1 exInitialState ⟨"alpha"⟩ ⟨"beta"⟩ [] rfl rfl rfl).1⟩
